import Mathlib

/-!
# WhatsApp service: connection lifecycle and message routing

A shallow embedding of `backend/internal/app/services/whatsapp_service.go`.

* Go strings are modelled by Lean strings (sequences of code points).  The only
  string operations of the service are equality tests, `len(s) == 0` and
  `strings.ReplaceAll` with the one-byte ASCII patterns `+`, `-` and space, and an
  ASCII byte never occurs inside a multi-byte UTF-8 sequence.
* Go `error` values are modelled by `GoError`; the `nil` error is `none`.
* The collaborators of the service (transport client, device store, workflow
  configuration, the two backends, the UUID generator) are outside the
  repository.  Their answers are taken from an `Env` of oracles, and every call
  made to them is recorded, in order, in the `calls` field of the `World`.
* A `*store.Device` is an address into `World.devices`, so that the client's
  `Store` and the service's `device` may be one object, as `Start` sets them up.
* A run-time panic is the result `none`.
* `log.Printf` lines change neither the service nor a collaborator and are left out.
-/

namespace WaService

/-! ## Strings -/

/-- Go `strings.ReplaceAll` for a non-empty pattern, on code-point lists: the
leftmost match is replaced and the scan resumes right after it.  `skip` counts
the characters of an already replaced match that are still to be dropped. -/
def replaceAllFrom (old new : List Char) : Nat → List Char → List Char
  | _, [] => []
  | skip + 1, _ :: cs => replaceAllFrom old new skip cs
  | 0, c :: cs =>
    if old.isPrefixOf (c :: cs) then new ++ replaceAllFrom old new (old.length - 1) cs
    else c :: replaceAllFrom old new 0 cs

/-- Go `strings.ReplaceAll(s, old, new)`.  With an empty `old` the replacement is
inserted before every code point and at the end of the string. -/
def ReplaceAll (s old new : String) : String :=
  if old.data = [] then ⟨new.data ++ s.data.flatMap (fun c => c :: new.data)⟩
  else ⟨replaceAllFrom old.data new.data 0 s.data⟩

/-! ## Errors and identifiers -/

/-- Go `error` values: `errorf msg` is `fmt.Errorf(msg)`, `wrapf msg e` is
`fmt.Errorf(msg + ": %w", e)`, and `foreign tag` is an error produced by a
collaborator. -/
inductive GoError where
  | errorf (msg : String)
  | wrapf (msg : String) (inner : GoError)
  | foreign (tag : String)
deriving DecidableEq, Repr

deriving instance DecidableEq for Except

/-- The transport type `types.JID`, with the two fields the service uses. -/
structure JID where
  User : String
  Server : String
deriving DecidableEq, Repr

/-- The transport function `types.NewJID(user, server)`. -/
def NewJID (user server : String) : JID := { User := user, Server := server }

/-- The method `formatPhoneToJID`; `defaultUserServer` is the transport constant
`types.DefaultUserServer`. -/
def formatPhoneToJID (defaultUserServer : String) (phone : String) : Except GoError JID :=
  let cleanPhone := ReplaceAll phone "+" ""
  let cleanPhone := ReplaceAll cleanPhone "-" ""
  let cleanPhone := ReplaceAll cleanPhone " " ""
  if cleanPhone.utf8ByteSize = 0 then .error (.errorf "invalid phone number")
  else .ok (NewJID cleanPhone defaultUserServer)

/-- The method `extractPhoneFromJID`. -/
def extractPhoneFromJID (jid : JID) : String := jid.User

/-! ## Data model -/

/-- The payload type `waE2E.ExtendedTextMessage`; `Text` is a `*string`. -/
structure waE2E.ExtendedTextMessage where
  Text : Option String
deriving DecidableEq, Repr

/-- The payload type `waE2E.Message`, with the two fields the service reads;
a `nil` pointer is `none`. -/
structure waE2E.Message where
  Conversation : Option String
  ExtendedTextMessage : Option waE2E.ExtendedTextMessage
deriving DecidableEq, Repr

/-- The part of `types.MessageInfo` the service reads. -/
structure MessageInfo where
  Sender : JID
  IsFromMe : Bool
deriving DecidableEq, Repr

set_option linter.dupNamespace false in
/-- The transport event `events.Message`. -/
structure events.Message where
  Info : MessageInfo
  Message : Option waE2E.Message
deriving DecidableEq, Repr

/-- The transport event `events.QR`. -/
structure events.QR where
  Codes : List String
deriving DecidableEq, Repr

/-- The dynamic type of the argument of `handleEvent`; `other` stands for every
event type the switch has no case for. -/
inductive Event where
  | Message (v : events.Message)
  | QR (v : events.QR)
  | Connected
  | Disconnected
  | LoggedOut
  | other
deriving DecidableEq, Repr

/-- A `uuid.UUID` value. -/
abbrev UUID := Nat

/-- The type `models.UserContext`. -/
structure UserContext where
  UserID : UUID
  Name : String
  Phone : String
  Email : String
deriving DecidableEq, Repr

/-- The address of a `store.Device` object. -/
abbrev DevicePtr := Nat

/-- The part of `store.Device` the service reads. -/
structure Device where
  ID : Option JID
deriving DecidableEq, Repr

/-- The part of `whatsmeow.Client` the service reads: `Store` points to the
device object the client was created with. -/
structure Client where
  Store : DevicePtr
deriving DecidableEq, Repr

/-- The struct `whatsAppService`, without its collaborator handles (their
answers are in `Env`) and without `dbPool` and `container`, which only `Start`
uses. -/
structure whatsAppService where
  client : Option Client
  device : Option DevicePtr
  isConnected : Bool
  qrCode : String
deriving DecidableEq, Repr

/-- The constructor `NewWhatsAppService`: every modelled field has its zero value. -/
def NewWhatsAppService : whatsAppService :=
  { client := none, device := none, isConnected := false, qrCode := "" }

/-- A call made to a collaborator. -/
inductive Call where
  | GetActiveWorkflowType
  | n8nSendMessageToWorkflow (userContext : UserContext) (message : String)
  | flowiseSendMessageToWorkflow (userContext : UserContext) (message : String)
  | clientSendMessage (jid : JID) (conversation : String)
  | clientDisconnect
  | clientLogout
  | deviceDelete
deriving DecidableEq, Repr

/-- The answers of the collaborators during one operation of the service.  Each
operation asks each collaborator at most once.  `clientLogout` and
`deviceDelete` receive the `ID` of the device object they act on and return the
error together with the `ID` the object holds afterwards. -/
structure Env where
  DefaultUserServer : String
  uuidNew : UUID
  GetActiveWorkflowType : String × Option GoError
  n8nSendMessageToWorkflow : UserContext → String → Option GoError
  flowiseSendMessageToWorkflow : UserContext → String → Option GoError
  clientSendMessage : JID → String → Option GoError
  clientLogout : Option JID → Option GoError × Option JID
  deviceDelete : Option JID → Option GoError × Option JID

/-- The service, the device objects it points to, and the collaborator calls made
so far, oldest first. -/
structure World where
  svc : whatsAppService
  devices : DevicePtr → Device
  calls : List Call

/-- Record one collaborator call. -/
def World.call (w : World) (c : Call) : World := { w with calls := w.calls ++ [c] }

/-- Store a new `ID` in the device object at `p`. -/
def World.setID (w : World) (p : DevicePtr) (id : Option JID) : World :=
  { w with devices := fun q => if q = p then { ID := id } else w.devices q }

/-! ## Operations -/

/-- The method `Stop`. -/
def Stop (w : World) : Option GoError × World :=
  match w.svc.client with
  | some _ =>
    let w := w.call .clientDisconnect
    (none, { w with svc := { w.svc with isConnected := false } })
  | none => (none, w)

/-- The method `SendMessage`. -/
def SendMessage (env : Env) (phone message : String) (w : World) : Option GoError × World :=
  if !w.svc.isConnected then (some (.errorf "WhatsApp client not connected"), w)
  else
    match formatPhoneToJID env.DefaultUserServer phone with
    | .error err => (some (.wrapf "invalid phone number" err), w)
    | .ok jid =>
      let w := w.call (.clientSendMessage jid message)
      match env.clientSendMessage jid message with
      | some err => (some (.wrapf "failed to send message" err), w)
      | none => (none, w)

/-- The method `IsConnected`. -/
def IsConnected (w : World) : Bool := w.svc.isConnected

/-- The method `GetQRCode`. -/
def GetQRCode (w : World) : Except GoError String :=
  if w.svc.qrCode = "" then .error (.errorf "QR code not available")
  else .ok w.svc.qrCode

/-- The method `extractMessageText`. -/
def extractMessageText (msg : Option waE2E.Message) : String :=
  match msg with
  | none => ""
  | some m =>
    match m.Conversation with
    | some text => text
    | none =>
      match m.ExtendedTextMessage with
      | some ext =>
        match ext.Text with
        | some text => text
        | none => ""
      | none => ""

/-- The method `sendErrorMessage`: the error of `SendMessage` is only logged. -/
def sendErrorMessage (env : Env) (phone : String) (w : World) : World :=
  (SendMessage env phone
    "Sorry, there was an error processing your message. Please try again later." w).2

/-- The method `sendUnregisteredUserMessage`. -/
def sendUnregisteredUserMessage (env : Env) (phone : String) (w : World) : World :=
  (SendMessage env phone
    "Sorry, you are not registered to use this service. Please contact the administrator for access."
    w).2

/-- The method `routeMessageToWorkflow`. -/
def routeMessageToWorkflow (env : Env) (userContext : UserContext) (message : String)
    (w : World) : Option GoError × World :=
  let w := w.call .GetActiveWorkflowType
  let workflowType :=
    match env.GetActiveWorkflowType with
    | (_, some _) => "n8n"
    | (workflowType, none) => workflowType
  if workflowType = "flowise" then
    let w := w.call (.flowiseSendMessageToWorkflow userContext message)
    match env.flowiseSendMessageToWorkflow userContext message with
    | some err => (some (.wrapf "failed to send message to Flowise" err), w)
    | none => (none, w)
  else if workflowType = "n8n" then
    let w := w.call (.n8nSendMessageToWorkflow userContext message)
    match env.n8nSendMessageToWorkflow userContext message with
    | some err => (some (.wrapf "failed to send message to N8N" err), w)
    | none => (none, w)
  else
    let w := w.call (.n8nSendMessageToWorkflow userContext message)
    match env.n8nSendMessageToWorkflow userContext message with
    | some err => (some (.wrapf "failed to send message to N8N (default)" err), w)
    | none => (none, w)

/-- The method `handleIncomingMessage`. -/
def handleIncomingMessage (env : Env) (evt : events.Message) (w : World) : World :=
  if evt.Info.IsFromMe then w
  else
    let phone := extractPhoneFromJID evt.Info.Sender
    if phone = "" then w
    else
      let messageText := extractMessageText evt.Message
      if messageText = "" then w
      else
        let userContext : UserContext :=
          { UserID := env.uuidNew, Name := "Dummy", Phone := phone, Email := "dummy@email.com" }
        match routeMessageToWorkflow env userContext messageText w with
        | (some _, w) => sendErrorMessage env phone w
        | (none, w) => w

/-- The method `handleQRCode`; `none` is the run-time panic of `evt.Codes[0]` on
an empty slice. -/
def handleQRCode (evt : events.QR) (w : World) : Option World :=
  match evt.Codes with
  | [] => none
  | code :: _ => some { w with svc := { w.svc with qrCode := code } }

/-- The method `handleConnected`. -/
def handleConnected (w : World) : World :=
  { w with svc := { w.svc with isConnected := true, qrCode := "" } }

/-- The method `handleDisconnected`. -/
def handleDisconnected (w : World) : World :=
  { w with svc := { w.svc with isConnected := false } }

/-- The method `handleLoggedOut`. -/
def handleLoggedOut (w : World) : World :=
  { w with svc := { w.svc with isConnected := false } }

/-- The method `handleEvent`. -/
def handleEvent (env : Env) (evt : Event) (w : World) : Option World :=
  match evt with
  | .Message v => some (handleIncomingMessage env v w)
  | .QR v => handleQRCode v w
  | .Connected => some (handleConnected w)
  | .Disconnected => some (handleDisconnected w)
  | .LoggedOut => some (handleLoggedOut w)
  | .other => some w

/-- The method `Logout`. -/
def Logout (env : Env) (w : World) : Option GoError × World :=
  let w :=
    match w.svc.client with
    | some client =>
      let w :=
        if (w.devices client.Store).ID ≠ none then
          (w.call .clientLogout).setID client.Store (env.clientLogout (w.devices client.Store).ID).2
        else w
      let w := w.call .clientDisconnect
      { w with svc := { w.svc with isConnected := false } }
    | none => w
  let w :=
    match w.svc.device with
    | some device =>
      let w :=
        if (w.devices device).ID ≠ none then
          (w.call .deviceDelete).setID device (env.deviceDelete (w.devices device).ID).2
        else w
      { w with svc := { w.svc with device := none } }
    | none => w
  (none, { w with svc := { w.svc with qrCode := "" } })

/-! ## Runs of the service -/

/-- What can happen to a running service: a transport event is delivered to
`handleEvent`, or an administrative method is called. -/
inductive Action where
  | event (evt : Event)
  | Stop
  | Logout
deriving DecidableEq, Repr

/-- One action; `none` when the handler panics. -/
def step (env : Env) (a : Action) (w : World) : Option World :=
  match a with
  | .event evt => handleEvent env evt w
  | .Stop => some (Stop w).2
  | .Logout => some (Logout env w).2

/-- A finite sequence of actions, each with the collaborator answers of its time. -/
def run : List (Env × Action) → World → Option World
  | [], w => some w
  | (env, a) :: rest, w =>
    match step env a w with
    | some w => run rest w
    | none => none

/-- Every QR-issued event of the sequence reaches a session that is not connected. -/
def qrOnlyWhileNotConnected : List (Env × Action) → World → Bool
  | [], _ => true
  | (env, a) :: rest, w =>
    (match a with
      | .event (.QR _) => !w.svc.isConnected
      | _ => true) &&
    (match step env a w with
      | some w => qrOnlyWhileNotConnected rest w
      | none => true)

/-! ## Vocabulary of the statements -/

/-- The three characters `formatPhoneToJID` strips. -/
def isStripped (c : Char) : Bool := c == '+' || c == '-' || c == ' '

/-- The two workflow backends. -/
inductive Backend where
  | N8N
  | Flowise
deriving DecidableEq, Repr

/-- The backend `routeMessageToWorkflow` chooses: Flowise when the fetch succeeds
with `flowise`, N8N otherwise. -/
def chosenBackend (env : Env) : Backend :=
  if env.GetActiveWorkflowType.2 = none ∧ env.GetActiveWorkflowType.1 = "flowise" then .Flowise
  else .N8N

/-- The call that invokes a backend. -/
def Backend.call : Backend → UserContext → String → Call
  | .N8N, userContext, message => .n8nSendMessageToWorkflow userContext message
  | .Flowise, userContext, message => .flowiseSendMessageToWorkflow userContext message

/-- The answer of a backend to its invocation. -/
def Backend.answer (env : Env) : Backend → UserContext → String → Option GoError
  | .N8N, userContext, message => env.n8nSendMessageToWorkflow userContext message
  | .Flowise, userContext, message => env.flowiseSendMessageToWorkflow userContext message

/-- A call to one of the two backends. -/
def Call.isBackend : Call → Bool
  | .n8nSendMessageToWorkflow _ _ => true
  | .flowiseSendMessageToWorkflow _ _ => true
  | _ => false

/-- The identity `handleIncomingMessage` attaches to a routed message. -/
def userContextOf (env : Env) (evt : events.Message) : UserContext :=
  { UserID := env.uuidNew, Name := "Dummy", Phone := evt.Info.Sender.User,
    Email := "dummy@email.com" }

/-- The first block of the method `Logout`, `if s.client != nil`: the remote
logout of a registered device, then the disconnection.  `Logout` is this block,
then `Logout.deviceBlock`, then the reset of the QR code. -/
def Logout.clientBlock (env : Env) (w : World) : World :=
  match w.svc.client with
  | some client =>
    let w :=
      if (w.devices client.Store).ID ≠ none then
        (w.call .clientLogout).setID client.Store (env.clientLogout (w.devices client.Store).ID).2
      else w
    let w := w.call .clientDisconnect
    { w with svc := { w.svc with isConnected := false } }
  | none => w

/-- The second block of the method `Logout`, `if s.device != nil`: the deletion
of the device record, then the reset of the device reference. -/
def Logout.deviceBlock (env : Env) (w : World) : World :=
  match w.svc.device with
  | some device =>
    let w :=
      if (w.devices device).ID ≠ none then
        (w.call .deviceDelete).setID device (env.deviceDelete (w.devices device).ID).2
      else w
    { w with svc := { w.svc with device := none } }
  | none => w

/-! ## Concrete collaborators and states -/

/-- Collaborators that all succeed; the configured workflow is `n8n`, and a
successful logout or deletion clears the device `ID`. -/
def envOk : Env :=
  { DefaultUserServer := "s.whatsapp.net"
    uuidNew := 7
    GetActiveWorkflowType := ("n8n", none)
    n8nSendMessageToWorkflow := fun _ _ => none
    flowiseSendMessageToWorkflow := fun _ _ => none
    clientSendMessage := fun _ _ => none
    clientLogout := fun _ => (none, none)
    deviceDelete := fun _ => (none, none) }

/-- Collaborators that all fail; a failed logout or deletion leaves the device
`ID` as it was. -/
def envDown : Env :=
  { DefaultUserServer := "s.whatsapp.net"
    uuidNew := 7
    GetActiveWorkflowType := ("", some (.foreign "config store down"))
    n8nSendMessageToWorkflow := fun _ _ => some (.foreign "n8n down")
    flowiseSendMessageToWorkflow := fun _ _ => some (.foreign "flowise down")
    clientSendMessage := fun _ _ => some (.foreign "send failed")
    clientLogout := fun id => (some (.foreign "logout request failed"), id)
    deviceDelete := fun id => (some (.foreign "delete failed"), id) }

/-- A freshly constructed service and no collaborator call yet. -/
def world0 : World :=
  { svc := NewWhatsAppService, devices := fun _ => { ID := none }, calls := [] }

/-- A service that awaits pairing: not connected, with the QR code `ABC` stored. -/
def worldAwaiting : World :=
  { world0 with svc := { world0.svc with qrCode := "ABC" } }

/-- A pairing, a connection loss and a second QR code, then a logout and a third
QR code. -/
def actsPairing : List (Env × Action) :=
  [(envOk, .event (.QR { Codes := ["ABC", "XYZ"] })), (envOk, .event .Connected),
    (envOk, .event .Disconnected), (envOk, .Stop), (envDown, .Logout),
    (envOk, .event (.QR { Codes := ["DEF"] }))]

/-- The state `actsPairing` leads to from `world0`. -/
def worldRepaired : World :=
  { world0 with svc := { world0.svc with qrCode := "DEF" } }

/-- A service without a client whose connected flag is set. -/
def worldOrphan : World :=
  { world0 with svc := { world0.svc with isConnected := true } }

/-- A started and paired service: client and service share the device object at
address 0, which holds a registered `ID`. -/
def worldPaired : World :=
  { svc := { client := some { Store := 0 }, device := some 0, isConnected := true, qrCode := "" }
    devices := fun _ => { ID := some { User := "628111", Server := "s.whatsapp.net" } }
    calls := [] }

/-! ## Phone normalisation -/

theorem replaceAllFrom_single (a : Char) (l : List Char) :
    replaceAllFrom [a] [] 0 l = l.filter (fun c => !(c == a)) := by
  induction l with
  | nil => rfl
  | cons c cs ih =>
    by_cases h : c = a
    · subst h
      simp [replaceAllFrom, List.isPrefixOf, ih]
    · have h2 : ¬ a = c := fun e => h e.symm
      simp [replaceAllFrom, List.isPrefixOf, ih, h, h2]

theorem ReplaceAll_single_data (s : String) (a : Char) :
    (ReplaceAll s (String.singleton a) "").data = s.data.filter (fun c => !(c == a)) := by
  have h : (String.singleton a).data = [a] := rfl
  simp [ReplaceAll, h, replaceAllFrom_single]

theorem utf8ByteSize_eq_zero (s : String) : s.utf8ByteSize = 0 ↔ s.data = [] := by
  cases s with
  | mk l =>
    cases l with
    | nil => exact ⟨fun _ => rfl, fun _ => rfl⟩
    | cons c cs =>
      have := c.utf8Size_pos
      simp [String.utf8ByteSize, String.utf8ByteSize.go]
      omega

theorem cleanPhone_data (phone : String) :
    (ReplaceAll (ReplaceAll (ReplaceAll phone "+" "") "-" "") " " "").data
      = phone.data.filter (fun c => !isStripped c) := by
  have h1 : (ReplaceAll phone "+" "").data = phone.data.filter (fun c => !(c == '+')) :=
    ReplaceAll_single_data phone '+'
  have h2 : (ReplaceAll (ReplaceAll phone "+" "") "-" "").data
      = (ReplaceAll phone "+" "").data.filter (fun c => !(c == '-')) :=
    ReplaceAll_single_data (ReplaceAll phone "+" "") '-'
  have h3 : (ReplaceAll (ReplaceAll (ReplaceAll phone "+" "") "-" "") " " "").data
      = (ReplaceAll (ReplaceAll phone "+" "") "-" "").data.filter (fun c => !(c == ' ')) :=
    ReplaceAll_single_data (ReplaceAll (ReplaceAll phone "+" "") "-" "") ' '
  rw [h3, h2, h1, List.filter_filter, List.filter_filter]
  congr 1
  funext c
  simp only [isStripped]
  generalize (c == '+') = x
  generalize (c == '-') = y
  generalize (c == ' ') = z
  cases x <;> cases y <;> cases z <;> rfl

theorem formatPhoneToJID_eq (server phone : String) :
    formatPhoneToJID server phone =
      if phone.data.filter (fun c => !isStripped c) = [] then
        .error (.errorf "invalid phone number")
      else .ok { User := ⟨phone.data.filter (fun c => !isStripped c)⟩, Server := server } := by
  have h := cleanPhone_data phone
  simp only [formatPhoneToJID, utf8ByteSize_eq_zero, h, NewJID]
  split
  · rfl
  · congr 2
    exact String.ext h

/-- C1: `formatPhoneToJID` fails exactly on the phones made only of `+`, `-` and
space (the empty phone included), and then with the invalid-phone error;
on every other phone it succeeds with the identifier whose user part is the phone
without its `+`, `-` and space characters, the others in their original order,
hence never empty, and whose server part is the default user server. -/
theorem formatPhoneToJID_spec (server phone : String) :
    ((∃ e, formatPhoneToJID server phone = .error e) ↔
        ∀ c ∈ phone.data, c = '+' ∨ c = '-' ∨ c = ' ') ∧
    ((∀ c ∈ phone.data, c = '+' ∨ c = '-' ∨ c = ' ') →
        formatPhoneToJID server phone = .error (.errorf "invalid phone number")) ∧
    ((¬ ∀ c ∈ phone.data, c = '+' ∨ c = '-' ∨ c = ' ') →
        ∃ jid, formatPhoneToJID server phone = .ok jid ∧
          jid.User.data = phone.data.filter (fun c => c ≠ '+' ∧ c ≠ '-' ∧ c ≠ ' ') ∧
          jid.User ≠ "" ∧ jid.User.data ≠ [] ∧ jid.Server = server) := by
  have key : phone.data.filter (fun c => !isStripped c) = [] ↔
      ∀ c ∈ phone.data, c = '+' ∨ c = '-' ∨ c = ' ' := by
    simp only [List.filter_eq_nil_iff, isStripped]
    refine forall_congr' (fun c => forall_congr' (fun _ => ?_))
    by_cases c1 : c = '+' <;> by_cases c2 : c = '-' <;> by_cases c3 : c = ' ' <;>
      simp [c1, c2, c3]
  have hf : phone.data.filter (fun c => c ≠ '+' ∧ c ≠ '-' ∧ c ≠ ' ')
      = phone.data.filter (fun c => !isStripped c) := by
    congr 1
    funext c
    by_cases c1 : c = '+' <;> by_cases c2 : c = '-' <;> by_cases c3 : c = ' ' <;>
      simp [isStripped, c1, c2, c3]
  rw [formatPhoneToJID_eq]
  refine ⟨?_, ?_, ?_⟩
  · rw [← key]
    constructor
    · rintro ⟨e, he⟩
      by_contra hne
      rw [if_neg hne] at he
      cases he
    · intro h
      exact ⟨_, if_pos h⟩
  · intro h
    rw [if_pos (key.mpr h)]
  · intro h
    have hne : ¬ phone.data.filter (fun c => !isStripped c) = [] := fun e => h (key.mp e)
    refine ⟨_, if_neg hne, hf.symm, ?_, ?_, rfl⟩
    · intro e
      exact hne (congrArg String.data e)
    · exact hne

/-- C10, as the code has it: on the phone `+62 812-3456`, `formatPhoneToJID`
succeeds with the user part `628123456` and the default user server. -/
theorem formatPhoneToJID_example (server : String) :
    formatPhoneToJID server "+62 812-3456" = .ok { User := "628123456", Server := server } := by
  rw [formatPhoneToJID_eq]
  rfl

/-- C10, as stated, fails: the user part for `+62 812-3456` is not `6281234566`. -/
theorem formatPhoneToJID_example_refuted :
    formatPhoneToJID "s.whatsapp.net" "+62 812-3456"
        = .ok { User := "628123456", Server := "s.whatsapp.net" } ∧
      formatPhoneToJID "s.whatsapp.net" "+62 812-3456"
        ≠ .ok { User := "6281234566", Server := "s.whatsapp.net" } := by
  decide

/-! ## Outbound messages -/

/-- C3: while the session is not connected, `SendMessage` returns the
not-connected error for every phone and text, makes no collaborator call (so the
transport send is not invoked) and leaves the service as it was; on the phone
`+- `, which normalises to nothing, the error is still the not-connected one
and not the invalid-phone one. -/
theorem SendMessage_not_connected (env : Env) (phone message : String) (w : World)
    (h : IsConnected w = false) :
    SendMessage env phone message w = (some (.errorf "WhatsApp client not connected"), w) ∧
    (SendMessage env phone message w).2.calls = w.calls ∧
    (SendMessage env phone message w).2.svc = w.svc ∧
    (SendMessage env "+- " message w).1 = some (.errorf "WhatsApp client not connected") ∧
    (∀ e, (SendMessage env "+- " message w).1 ≠ some (.wrapf "invalid phone number" e)) := by
  have hc : w.svc.isConnected = false := h
  have key : ∀ p, SendMessage env p message w
      = (some (.errorf "WhatsApp client not connected"), w) := by
    intro p
    simp [SendMessage, hc]
  refine ⟨key phone, ?_, ?_, ?_, ?_⟩
  · rw [key]
  · rw [key]
  · rw [key]
  · intro e
    rw [key]
    simp

/-- The not-connected case of `SendMessage` on the fresh service and the phone `+- `. -/
theorem SendMessage_not_connected_witness :
    IsConnected world0 = false ∧
    (SendMessage envOk "+- " "hello" world0).1 = some (.errorf "WhatsApp client not connected") ∧
    (SendMessage envOk "+- " "hello" world0).2.calls = [] :=
  ⟨rfl, (SendMessage_not_connected envOk "+- " "hello" world0 rfl).2.2.2.1,
    (SendMessage_not_connected envOk "+- " "hello" world0 rfl).2.1⟩

/-! ## Workflow routing -/

theorem routeMessageToWorkflow_world (env : Env) (userContext : UserContext) (message : String)
    (w : World) :
    (routeMessageToWorkflow env userContext message w).2 =
      { w with calls := w.calls ++
          [.GetActiveWorkflowType, (chosenBackend env).call userContext message] } := by
  rcases hcfg : env.GetActiveWorkflowType with ⟨t, _ | e⟩
  · by_cases h1 : t = "flowise"
    · simp only [routeMessageToWorkflow, Backend.call, chosenBackend, hcfg, h1, World.call]
      cases env.flowiseSendMessageToWorkflow userContext message <;> simp
    · by_cases h2 : t = "n8n"
      · simp only [routeMessageToWorkflow, Backend.call, chosenBackend, hcfg, h1, h2, World.call]
        cases env.n8nSendMessageToWorkflow userContext message <;> simp
      · simp only [routeMessageToWorkflow, Backend.call, chosenBackend, hcfg, h1, h2, World.call]
        cases env.n8nSendMessageToWorkflow userContext message <;> simp [h1]
  · simp only [routeMessageToWorkflow, Backend.call, chosenBackend, hcfg, World.call]
    cases env.n8nSendMessageToWorkflow userContext message <;> simp

theorem routeMessageToWorkflow_result (env : Env) (userContext : UserContext) (message : String)
    (w : World) :
    (routeMessageToWorkflow env userContext message w).1 =
      match (chosenBackend env).answer env userContext message with
      | none => none
      | some err =>
        some (.wrapf
          (if chosenBackend env = .Flowise then "failed to send message to Flowise"
            else if env.GetActiveWorkflowType.2.isSome ∨ env.GetActiveWorkflowType.1 = "n8n" then
              "failed to send message to N8N"
            else "failed to send message to N8N (default)") err) := by
  rcases hcfg : env.GetActiveWorkflowType with ⟨t, _ | e⟩
  · by_cases h1 : t = "flowise"
    · simp only [routeMessageToWorkflow, Backend.answer, chosenBackend, hcfg, h1]
      cases hb : env.flowiseSendMessageToWorkflow userContext message <;> simp [hb]
    · by_cases h2 : t = "n8n"
      · simp only [routeMessageToWorkflow, Backend.answer, chosenBackend, hcfg, h1, h2]
        cases hb : env.n8nSendMessageToWorkflow userContext message <;> simp [hb]
      · simp only [routeMessageToWorkflow, Backend.answer, chosenBackend, hcfg, h1, h2]
        cases hb : env.n8nSendMessageToWorkflow userContext message <;> simp [hb, h1, h2]
  · simp only [routeMessageToWorkflow, Backend.answer, chosenBackend, hcfg]
    cases hb : env.n8nSendMessageToWorkflow userContext message <;> simp [hb]

theorem chosenBackend_flowise (env : Env) (h : env.GetActiveWorkflowType = ("flowise", none)) :
    chosenBackend env = .Flowise := by
  simp [chosenBackend, h]

theorem chosenBackend_failed (env : Env) (t : String) (e : GoError)
    (h : env.GetActiveWorkflowType = (t, some e)) : chosenBackend env = .N8N := by
  simp [chosenBackend, h]

theorem chosenBackend_other (env : Env) (t : String) (ht : t ≠ "flowise")
    (h : env.GetActiveWorkflowType = (t, none)) : chosenBackend env = .N8N := by
  simp [chosenBackend, h, ht]

/-- C2: whatever the configuration fetch answers, `routeMessageToWorkflow` makes
the fetch and then exactly one backend call, with the given user context and
message, and changes nothing else: the Flowise call when the fetch succeeds with
`flowise`; the N8N call when it succeeds with `n8n`, when it fails, and when it
succeeds with any other value, `unknown-type` included. -/
theorem routeMessageToWorkflow_one_backend (env : Env) (userContext : UserContext)
    (message : String) (w : World) :
    (∃ b : Backend, (routeMessageToWorkflow env userContext message w).2.calls
        = w.calls ++ [.GetActiveWorkflowType, b.call userContext message]) ∧
    (((routeMessageToWorkflow env userContext message w).2.calls.drop w.calls.length).filter
        Call.isBackend).length = 1 ∧
    (routeMessageToWorkflow env userContext message w).2.svc = w.svc ∧
    (env.GetActiveWorkflowType = ("flowise", none) →
      (routeMessageToWorkflow env userContext message w).2.calls
        = w.calls ++ [.GetActiveWorkflowType, .flowiseSendMessageToWorkflow userContext message]) ∧
    (env.GetActiveWorkflowType = ("n8n", none) →
      (routeMessageToWorkflow env userContext message w).2.calls
        = w.calls ++ [.GetActiveWorkflowType, .n8nSendMessageToWorkflow userContext message]) ∧
    (∀ t e, env.GetActiveWorkflowType = (t, some e) →
      (routeMessageToWorkflow env userContext message w).2.calls
        = w.calls ++ [.GetActiveWorkflowType, .n8nSendMessageToWorkflow userContext message]) ∧
    (∀ t, t ≠ "flowise" → env.GetActiveWorkflowType = (t, none) →
      (routeMessageToWorkflow env userContext message w).2.calls
        = w.calls ++ [.GetActiveWorkflowType, .n8nSendMessageToWorkflow userContext message]) ∧
    (env.GetActiveWorkflowType = ("unknown-type", none) →
      (routeMessageToWorkflow env userContext message w).2.calls
        = w.calls ++ [.GetActiveWorkflowType, .n8nSendMessageToWorkflow userContext message]) := by
  have hw := routeMessageToWorkflow_world env userContext message w
  have hother : ∀ t, t ≠ "flowise" → env.GetActiveWorkflowType = (t, none) →
      (routeMessageToWorkflow env userContext message w).2.calls
        = w.calls ++ [.GetActiveWorkflowType, .n8nSendMessageToWorkflow userContext message] := by
    intro t ht h
    rw [hw, chosenBackend_other env t ht h]
    rfl
  refine ⟨⟨chosenBackend env, by rw [hw]⟩, ?_, by rw [hw], ?_, ?_, ?_, hother, ?_⟩
  · rw [hw]
    cases chosenBackend env <;> simp [Backend.call, Call.isBackend]
  · intro h
    rw [hw, chosenBackend_flowise env h]
    rfl
  · exact hother "n8n" (by decide)
  · intro t e h
    rw [hw, chosenBackend_failed env t e h]
    rfl
  · exact hother "unknown-type" (by decide)

/-- C8: `routeMessageToWorkflow` makes one backend call and returns an error
exactly when that call does, and then the error wraps the error of the backend;
when the configuration fetch fails and the N8N call succeeds the result is
success; a failing backend is called once, and no other backend call follows. -/
theorem routeMessageToWorkflow_error (env : Env) (userContext : UserContext)
    (message : String) (w : World) :
    ∃ b : Backend,
      (routeMessageToWorkflow env userContext message w).2.calls
        = w.calls ++ [.GetActiveWorkflowType, b.call userContext message] ∧
      ((routeMessageToWorkflow env userContext message w).1 = none ↔
        b.answer env userContext message = none) ∧
      (∀ err, b.answer env userContext message = some err →
        ∃ msg, (routeMessageToWorkflow env userContext message w).1 = some (.wrapf msg err)) ∧
      (∀ t e, env.GetActiveWorkflowType = (t, some e) →
        env.n8nSendMessageToWorkflow userContext message = none →
        (routeMessageToWorkflow env userContext message w).1 = none) ∧
      (∀ err, b.answer env userContext message = some err →
        ((routeMessageToWorkflow env userContext message w).2.calls.drop w.calls.length).filter
          Call.isBackend = [b.call userContext message]) := by
  have hw := routeMessageToWorkflow_world env userContext message w
  have hr := routeMessageToWorkflow_result env userContext message w
  refine ⟨chosenBackend env, by rw [hw], ?_, ?_, ?_, ?_⟩
  · rw [hr]
    cases (chosenBackend env).answer env userContext message <;> simp
  · intro err herr
    rw [hr, herr]
    exact ⟨_, rfl⟩
  · intro t e h hn
    rw [hr, chosenBackend_failed env t e h]
    simp [Backend.answer, hn]
  · intro err _
    rw [hw]
    cases chosenBackend env <;> simp [Backend.call, Call.isBackend]

/-! ## Inbound messages -/

theorem SendMessage_svc (env : Env) (phone message : String) (w : World) :
    (SendMessage env phone message w).2.svc = w.svc := by
  unfold SendMessage
  split
  · rfl
  · split
    · rfl
    · split <;> rfl

theorem SendMessage_calls (env : Env) (phone message : String) (w : World) :
    ∃ notice, (SendMessage env phone message w).2.calls = w.calls ++ notice ∧
      (SendMessage env phone message w).2.devices = w.devices ∧
      ∀ c ∈ notice, ∃ jid text, c = .clientSendMessage jid text := by
  unfold SendMessage
  split
  · exact ⟨[], by simp, rfl, by simp⟩
  · split
    · exact ⟨[], by simp, rfl, by simp⟩
    · rename_i jid _
      split
      · exact ⟨[.clientSendMessage jid message], rfl, rfl, by simp⟩
      · exact ⟨[.clientSendMessage jid message], rfl, rfl, by simp⟩

theorem handleIncomingMessage_svc (env : Env) (evt : events.Message) (w : World) :
    (handleIncomingMessage env evt w).svc = w.svc := by
  unfold handleIncomingMessage
  split
  · rfl
  · simp only
    split
    · rfl
    · split
      · rfl
      · split
        · rename_i e w1 h
          have h2 := routeMessageToWorkflow_world env
            { UserID := env.uuidNew, Name := "Dummy", Phone := extractPhoneFromJID evt.Info.Sender,
              Email := "dummy@email.com" } (extractMessageText evt.Message) w
          rw [h] at h2
          simp only at h2
          rw [sendErrorMessage, SendMessage_svc, h2]
        · rename_i w1 h
          have h2 := routeMessageToWorkflow_world env
            { UserID := env.uuidNew, Name := "Dummy", Phone := extractPhoneFromJID evt.Info.Sender,
              Email := "dummy@email.com" } (extractMessageText evt.Message) w
          rw [h] at h2
          simp only at h2
          rw [h2]

theorem handleIncomingMessage_routed (env : Env) (evt : events.Message) (w : World)
    (hme : evt.Info.IsFromMe = false) (hphone : evt.Info.Sender.User ≠ "")
    (htext : extractMessageText evt.Message ≠ "") :
    handleIncomingMessage env evt w =
      match routeMessageToWorkflow env (userContextOf env evt) (extractMessageText evt.Message) w with
      | (some _, w1) => sendErrorMessage env evt.Info.Sender.User w1
      | (none, w1) => w1 := by
  simp [handleIncomingMessage, hme, extractPhoneFromJID, hphone, htext, userContextOf]

/-- C9: `handleIncomingMessage` returns at once, with no collaborator call and
the service unchanged, on a self-originated message and on a payload without text
(absent payload, neither a plain-text field nor an extended-text field with
text, or an empty text).  Otherwise, when the user part of the sender is not
empty, it routes once: one configuration fetch and one backend call carrying the
extracted text, followed at most by transport sends of the error notice.  The
extracted text is the `Conversation` field when present and else the text of
the extended-text field. -/
theorem handleIncomingMessage_spec (env : Env) (evt : events.Message) (w : World) :
    (evt.Info.IsFromMe = true ∨ extractMessageText evt.Message = "" →
      handleIncomingMessage env evt w = w) ∧
    (evt.Info.IsFromMe = false → extractMessageText evt.Message ≠ "" →
      evt.Info.Sender.User ≠ "" →
      (handleIncomingMessage env evt w =
        match routeMessageToWorkflow env (userContextOf env evt)
            (extractMessageText evt.Message) w with
        | (some _, w1) => sendErrorMessage env evt.Info.Sender.User w1
        | (none, w1) => w1) ∧
      ∃ (b : Backend) (notice : List Call), (handleIncomingMessage env evt w).calls
          = w.calls ++ [.GetActiveWorkflowType,
              b.call (userContextOf env evt) (extractMessageText evt.Message)] ++ notice ∧
        ∀ c ∈ notice, ∃ jid text, c = .clientSendMessage jid text) ∧
    extractMessageText none = "" ∧
    (∀ m text, m.Conversation = some text → extractMessageText (some m) = text) ∧
    (∀ m ext text, m.Conversation = none → m.ExtendedTextMessage = some ext →
      ext.Text = some text → extractMessageText (some m) = text) ∧
    (∀ m, m.Conversation = none →
      (m.ExtendedTextMessage = none ∨ ∃ ext, m.ExtendedTextMessage = some ext ∧ ext.Text = none) →
      extractMessageText (some m) = "") := by
  refine ⟨?_, ?_, rfl, ?_, ?_, ?_⟩
  · rintro (h | h)
    · simp [handleIncomingMessage, h]
    · simp [handleIncomingMessage, h]
  · intro hme htext hphone
    have hr := handleIncomingMessage_routed env evt w hme hphone htext
    refine ⟨hr, ?_⟩
    have hw := routeMessageToWorkflow_world env (userContextOf env evt)
      (extractMessageText evt.Message) w
    rw [hr]
    rcases hroute : routeMessageToWorkflow env (userContextOf env evt)
      (extractMessageText evt.Message) w with ⟨_ | e, w1⟩
    · rw [hroute] at hw
      simp only at hw
      refine ⟨chosenBackend env, [], ?_, by simp⟩
      simp only [hw, List.append_nil]
    · rw [hroute] at hw
      simp only at hw
      obtain ⟨notice, hn, _, hall⟩ := SendMessage_calls env evt.Info.Sender.User
        "Sorry, there was an error processing your message. Please try again later." w1
      refine ⟨chosenBackend env, notice, ?_, hall⟩
      subst hw
      exact hn
  · intro m text h
    simp [extractMessageText, h]
  · intro m ext text h1 h2 h3
    simp [extractMessageText, h1, h2, h3]
  · intro m h1 h2
    rcases h2 with h2 | ⟨ext, h2, h3⟩
    · simp [extractMessageText, h1, h2]
    · simp [extractMessageText, h1, h2, h3]

/-! ## Connection lifecycle -/

/-- C5, as the code has it: from every state, handling a `LoggedOut` event
leaves the session not connected and leaves the stored QR code as it was, so
`GetQRCode` fails afterwards exactly when the stored code was already empty. -/
theorem handleLoggedOut_spec (env : Env) (w : World) :
    ∃ w1, handleEvent env .LoggedOut w = some w1 ∧
      IsConnected w1 = false ∧
      w1.svc.qrCode = w.svc.qrCode ∧
      GetQRCode w1 = GetQRCode w ∧
      (GetQRCode w1 = .error (.errorf "QR code not available") ↔ w.svc.qrCode = "") := by
  refine ⟨handleLoggedOut w, rfl, rfl, rfl, rfl, ?_⟩
  by_cases h : w.svc.qrCode = ""
  · simp [GetQRCode, handleLoggedOut, h]
  · simp [GetQRCode, handleLoggedOut, h]

/-- C5, as stated, fails: with the QR code `ABC` stored, after a `LoggedOut`
event `GetQRCode` still returns `ABC` instead of failing. -/
theorem handleLoggedOut_keeps_qr :
    (handleEvent envOk .LoggedOut worldAwaiting).map GetQRCode = some (.ok "ABC") ∧
    (handleEvent envOk .LoggedOut worldAwaiting).map IsConnected = some false ∧
    GetQRCode worldAwaiting = .ok "ABC" := by
  decide

/-- C6: a newly constructed service is not connected and has no QR code; after
a QR event whose first code is a non-empty `c`, `GetQRCode` returns `c` and the
session is not connected; after a following `Connected` event the session is
connected and `GetQRCode` fails with the QR-not-available error; after a
following `Disconnected` event the session is not connected.  In every state
`GetQRCode` returns the stored code and fails exactly when it is empty. -/
theorem lifecycle_spec (env : Env) (devices : DevicePtr → Device) (c : String)
    (rest : List String) (hc : c ≠ "") :
    IsConnected { svc := NewWhatsAppService, devices := devices, calls := [] } = false ∧
    GetQRCode { svc := NewWhatsAppService, devices := devices, calls := [] }
      = .error (.errorf "QR code not available") ∧
    (∃ w1 w2 w3,
      handleEvent env (.QR { Codes := c :: rest })
        { svc := NewWhatsAppService, devices := devices, calls := [] } = some w1 ∧
      GetQRCode w1 = .ok c ∧ IsConnected w1 = false ∧
      handleEvent env .Connected w1 = some w2 ∧
      IsConnected w2 = true ∧ GetQRCode w2 = .error (.errorf "QR code not available") ∧
      handleEvent env .Disconnected w2 = some w3 ∧
      IsConnected w3 = false) ∧
    (∀ w : World, (w.svc.qrCode = "" → GetQRCode w = .error (.errorf "QR code not available")) ∧
      (w.svc.qrCode ≠ "" → GetQRCode w = .ok w.svc.qrCode)) := by
  refine ⟨rfl, rfl, ⟨_, _, _, rfl, ?_, rfl, rfl, rfl, rfl, rfl, rfl⟩, ?_⟩
  · simp [GetQRCode, hc]
  · intro w
    constructor
    · intro h
      simp [GetQRCode, h]
    · intro h
      simp [GetQRCode, h]

/-- The pairing scenario of `lifecycle_spec` with the code `ABC`. -/
theorem lifecycle_spec_witness :
    "ABC" ≠ "" ∧
    ∃ w1 w2 w3,
      handleEvent envOk (.QR { Codes := ["ABC"] }) world0 = some w1 ∧
      GetQRCode w1 = .ok "ABC" ∧ IsConnected w1 = false ∧
      handleEvent envOk .Connected w1 = some w2 ∧
      IsConnected w2 = true ∧ GetQRCode w2 = .error (.errorf "QR code not available") ∧
      handleEvent envOk .Disconnected w2 = some w3 ∧
      IsConnected w3 = false :=
  ⟨by decide, (lifecycle_spec envOk (fun _ => { ID := none }) "ABC" [] (by decide)).2.2.1⟩

theorem Stop_svc (w : World) :
    (Stop w).2.svc.qrCode = w.svc.qrCode ∧
      ((Stop w).2.svc.isConnected = true → w.svc.isConnected = true) := by
  unfold Stop
  split
  · exact ⟨rfl, fun h => by cases h⟩
  · exact ⟨rfl, fun h => h⟩

theorem step_keeps_pairing (env : Env) (a : Action) (w w1 : World)
    (hinv : w.svc.qrCode ≠ "" → w.svc.isConnected = false)
    (hqr : (match a with
      | .event (.QR _) => !w.svc.isConnected
      | _ => true) = true)
    (hstep : step env a w = some w1) :
    w1.svc.qrCode ≠ "" → w1.svc.isConnected = false := by
  cases a with
  | event evt =>
    cases evt with
    | Message v =>
      simp only [step, handleEvent, Option.some.injEq] at hstep
      subst hstep
      rw [handleIncomingMessage_svc]
      exact hinv
    | QR v =>
      simp only [step, handleEvent, handleQRCode] at hstep
      split at hstep
      · cases hstep
      · simp only [Option.some.injEq] at hstep
        subst hstep
        intro _
        simpa using hqr
    | Connected =>
      simp only [step, handleEvent, Option.some.injEq] at hstep
      subst hstep
      intro h
      exact absurd rfl h
    | Disconnected =>
      simp only [step, handleEvent, Option.some.injEq] at hstep
      subst hstep
      intro _
      rfl
    | LoggedOut =>
      simp only [step, handleEvent, Option.some.injEq] at hstep
      subst hstep
      intro _
      rfl
    | other =>
      simp only [step, handleEvent, Option.some.injEq] at hstep
      subst hstep
      exact hinv
  | Stop =>
    simp only [step, Option.some.injEq] at hstep
    subst hstep
    intro h
    have hs := Stop_svc w
    rw [hs.1] at h
    have h0 := hinv h
    cases hc : (Stop w).2.svc.isConnected
    · rfl
    · rw [hs.2 hc] at h0
      cases h0
  | Logout =>
    simp only [step, Option.some.injEq] at hstep
    subst hstep
    intro h
    exact absurd rfl h

theorem run_keeps_pairing (acts : List (Env × Action)) :
    ∀ w0 w : World, (w0.svc.qrCode ≠ "" → w0.svc.isConnected = false) →
      qrOnlyWhileNotConnected acts w0 = true → run acts w0 = some w →
      w.svc.qrCode ≠ "" → w.svc.isConnected = false := by
  induction acts with
  | nil =>
    intro w0 w hinv _ hrun
    simp only [run, Option.some.injEq] at hrun
    subst hrun
    exact hinv
  | cons x rest ih =>
    obtain ⟨env, a⟩ := x
    intro w0 w hinv hguard hrun
    simp only [qrOnlyWhileNotConnected, Bool.and_eq_true] at hguard
    simp only [run] at hrun
    cases hstep : step env a w0 with
    | none =>
      rw [hstep] at hrun
      cases hrun
    | some w1 =>
      rw [hstep] at hrun
      have h2 := hguard.2
      rw [hstep] at h2
      exact ih w1 w (step_keeps_pairing env a w0 w1 hinv hguard.1 hstep) h2 hrun

/-- C4, as the code has it: start from a state that is not connected (the initial
state, with its empty QR code, is one) and run any finite sequence of transport events and `Stop` and `Logout`
calls in which every QR event reaches a session that is not connected.  Then in
the state reached a non-empty QR code implies that `IsConnected` is false.
Moreover, from every state at all, a `Connected` event is handled and leaves
the QR code empty. -/
theorem qr_implies_not_connected (acts : List (Env × Action)) (w0 w : World)
    (h0 : IsConnected w0 = false)
    (hguard : qrOnlyWhileNotConnected acts w0 = true)
    (hrun : run acts w0 = some w) :
    (w.svc.qrCode ≠ "" → IsConnected w = false) ∧
    (∀ (env : Env) (v : World), ∃ v1, handleEvent env .Connected v = some v1 ∧
      v1.svc.qrCode = "" ∧ IsConnected v1 = true) :=
  ⟨run_keeps_pairing acts w0 w (fun _ => h0) hguard hrun,
    fun _ v => ⟨handleConnected v, rfl, rfl, rfl⟩⟩

/-- The run `actsPairing` from the fresh service ends not connected with the code `DEF`. -/
theorem qr_implies_not_connected_witness :
    IsConnected world0 = false ∧ world0.svc.qrCode = "" ∧
    run actsPairing world0 = some worldRepaired ∧
    worldRepaired.svc.qrCode = "DEF" ∧
    (worldRepaired.svc.qrCode ≠ "" → IsConnected worldRepaired = false) :=
  ⟨rfl, rfl, rfl, rfl,
    (qr_implies_not_connected actsPairing world0 worldRepaired rfl rfl rfl).1⟩

/-- C4, as stated, fails: from the initial state, a `Connected` event followed by
a QR event with the code `ABC` leaves the session connected with the non-empty
QR code `ABC` stored. -/
theorem qr_while_connected :
    (run [(envOk, .event .Connected), (envOk, .event (.QR { Codes := ["ABC"] }))] world0).map
      (fun w => (IsConnected w, w.svc.qrCode)) = some (true, "ABC") := by
  decide

/-! ## Logout -/

theorem Logout_eq_blocks (env : Env) (w : World) :
    Logout env w =
      (none, { Logout.deviceBlock env (Logout.clientBlock env w) with
        svc := { (Logout.deviceBlock env (Logout.clientBlock env w)).svc with qrCode := "" } }) :=
  rfl

theorem clientBlock_spec (env : Env) (w : World) :
    (Logout.clientBlock env w).svc.client = w.svc.client ∧
    (Logout.clientBlock env w).svc.device = w.svc.device ∧
    (w.svc.client ≠ none ∨ w.svc.isConnected = false →
      (Logout.clientBlock env w).svc.isConnected = false) ∧
    ∃ l, (Logout.clientBlock env w).calls = w.calls ++ l ∧ Call.deviceDelete ∉ l ∧
      ((∀ c, w.svc.client = some c → (w.devices c.Store).ID = none) → Call.clientLogout ∉ l) := by
  unfold Logout.clientBlock
  rcases hc : w.svc.client with _ | c
  · refine ⟨hc, rfl, ?_, [], by simp, by simp, by simp⟩
    intro h
    simpa using h
  · by_cases hid : (w.devices c.Store).ID = none
    · refine ⟨?_, ?_, ?_, [.clientDisconnect], ?_, by simp, by simp⟩ <;>
        simp [hid, hc, World.call]
    · refine ⟨?_, ?_, ?_, [.clientLogout, .clientDisconnect], ?_, by simp, ?_⟩
      · simp [hid, hc, World.call, World.setID]
      · simp [hid, World.call, World.setID]
      · simp [hid, World.call, World.setID]
      · simp [hid, World.call, World.setID]
      · intro h
        exact absurd (h c rfl) hid

theorem deviceBlock_spec (env : Env) (w : World) :
    (Logout.deviceBlock env w).svc.client = w.svc.client ∧
    (Logout.deviceBlock env w).svc.device = none ∧
    (Logout.deviceBlock env w).svc.isConnected = w.svc.isConnected ∧
    (w.svc.device = none → Logout.deviceBlock env w = w) := by
  unfold Logout.deviceBlock
  rcases hd : w.svc.device with _ | d
  · exact ⟨rfl, hd, rfl, fun _ => rfl⟩
  · by_cases hid : (w.devices d).ID = none
    · simp [hid, World.call, World.setID]
    · simp [hid, World.call, World.setID]

theorem Logout_fields (env : Env) (w : World) :
    (Logout env w).1 = none ∧ (Logout env w).2.svc.qrCode = "" ∧
    (Logout env w).2.svc.device = none ∧ (Logout env w).2.svc.client = w.svc.client ∧
    (w.svc.client ≠ none ∨ w.svc.isConnected = false →
      (Logout env w).2.svc.isConnected = false) := by
  have hc := clientBlock_spec env w
  have hd := deviceBlock_spec env (Logout.clientBlock env w)
  refine ⟨rfl, rfl, hd.2.1, ?_, ?_⟩
  · show (Logout.deviceBlock env (Logout.clientBlock env w)).svc.client = _
    rw [hd.1, hc.1]
  · intro h
    show (Logout.deviceBlock env (Logout.clientBlock env w)).svc.isConnected = _
    rw [hd.2.2.1]
    exact hc.2.2.1 h

theorem Logout_calls_of_no_device (env : Env) (w : World) (hdev : w.svc.device = none) :
    ∃ l, (Logout env w).2.calls = w.calls ++ l ∧ Call.deviceDelete ∉ l ∧
      ((∀ c, w.svc.client = some c → (w.devices c.Store).ID = none) → Call.clientLogout ∉ l) := by
  have hc := clientBlock_spec env w
  have hd := deviceBlock_spec env (Logout.clientBlock env w)
  obtain ⟨l, hl, h1, h2⟩ := hc.2.2.2
  refine ⟨l, ?_, h1, h2⟩
  show (Logout.deviceBlock env (Logout.clientBlock env w)).calls = _
  rw [hd.2.2.2 (by rw [hc.2.1, hdev]), hl]

/-- C7, as the code has it: whatever the remote logout and the device deletion
answer, `Logout` returns success, and so does a second `Logout` right after it;
after each call the QR code is empty and the device reference is cleared, and
the session is not connected when a client exists or it was not connected
before.  The second call never deletes a device record, and it makes no remote
logout call when the first call left no registered session, that is, no client
or a client whose store has no `ID`. -/
theorem Logout_twice (env1 env2 : Env) (w : World) :
    (Logout env1 w).1 = none ∧
    (Logout env2 (Logout env1 w).2).1 = none ∧
    (Logout env1 w).2.svc.qrCode = "" ∧ (Logout env1 w).2.svc.device = none ∧
    (Logout env2 (Logout env1 w).2).2.svc.qrCode = "" ∧
    (Logout env2 (Logout env1 w).2).2.svc.device = none ∧
    (w.svc.client ≠ none ∨ w.svc.isConnected = false →
      (Logout env1 w).2.svc.isConnected = false ∧
      (Logout env2 (Logout env1 w).2).2.svc.isConnected = false) ∧
    ∃ l, (Logout env2 (Logout env1 w).2).2.calls = (Logout env1 w).2.calls ++ l ∧
      Call.deviceDelete ∉ l ∧
      ((∀ c, (Logout env1 w).2.svc.client = some c →
          ((Logout env1 w).2.devices c.Store).ID = none) → Call.clientLogout ∉ l) := by
  have f1 := Logout_fields env1 w
  have f2 := Logout_fields env2 (Logout env1 w).2
  refine ⟨rfl, rfl, rfl, f1.2.2.1, rfl, f2.2.2.1, ?_,
    Logout_calls_of_no_device env2 (Logout env1 w).2 f1.2.2.1⟩
  intro h
  have h1 := f1.2.2.2.2 h
  exact ⟨h1, f2.2.2.2.2 (Or.inr h1)⟩

/-- Two logouts of the paired service with collaborators that succeed: the second
one only disconnects. -/
theorem Logout_twice_witness :
    (Logout envOk (Logout envOk worldPaired).2).2.calls
      = [.clientLogout, .clientDisconnect, .clientDisconnect] ∧
    (Logout envOk (Logout envOk worldPaired).2).1 = none :=
  ⟨by decide, (Logout_twice envOk envOk worldPaired).2.1⟩

/-- C7, as stated, fails: when the remote logout and the device deletion both
fail and leave the registration in place, the second `Logout` makes the remote
logout call again.  Besides, on a service without a client whose connected flag
is set, `Logout` leaves the flag set. -/
theorem Logout_twice_remote_again :
    (Logout envDown worldPaired).1 = none ∧
    (Logout envDown worldPaired).2.calls = [.clientLogout, .clientDisconnect, .deviceDelete] ∧
    (Logout envDown (Logout envDown worldPaired).2).1 = none ∧
    (Logout envDown (Logout envDown worldPaired).2).2.calls
      = [.clientLogout, .clientDisconnect, .deviceDelete, .clientLogout, .clientDisconnect] ∧
    IsConnected (Logout envOk worldOrphan).2 = true := by
  decide

end WaService
